import Mathlib

/-!
Verification of the prosper-finance multi-tenant personal-finance tracker.

Shallow embedding conventions:
* timestamps and dates are epoch milliseconds (`Int`); `new Date()` values are
  passed in as explicit `now` parameters;
* SQL `numeric` columns (premiums, investment amounts) and JS `parseFloat`
  results are modelled as exact rationals (`ℚ`);
* the relational store is a `DB` record of lists of rows; drizzle
  `select/insert/update/delete ... where` statements become list
  `find?/append/map/filter` over the row lists;
* `ORDER BY created_at DESC` clauses only permute result lists and are omitted:
  no verified property concerns row ordering;
* Express handlers become pure functions from the database, the resolved
  session, and the parsed request payload to an HTTP status code plus the new
  database state; zod-parsed payloads are modelled as typed records whose
  optional fields are `Option` (absent = `none`), mirroring which fields each
  schema accepts;
* bcrypt is an out-of-scope one-way collaborator, modelled as an injective
  tagging function; the Vercel blob collaborator is an oracle parameter
  `String → Except String Unit` so that its failures can be quantified over.
-/

namespace Prosper

abbrev Timestamp := Int

/-- Milliseconds in a day, the divisor used by the serverless stats handler. -/
def dayMs : Int := 86400000

/-- Tenant row (shared/schema.ts `tenants` table). -/
structure Tenant where
  id : String
  name : String
  domain : Option String
  subdomain : Option String
  createdAt : Timestamp
deriving DecidableEq, Inhabited

/-- User row (shared/models/auth.ts `users` table, as declared in api/index.ts). -/
structure User where
  id : String
  email : String
  passwordHash : Option String
  firstName : Option String
  lastName : Option String
  profileImageUrl : Option String
  tenantId : Option String
  role : String
  createdAt : Timestamp
  updatedAt : Timestamp
deriving DecidableEq, Inhabited

/-- Policy row (shared/schema.ts `policies` table). -/
structure Policy where
  id : Nat
  tenantId : String
  provider : String
  policyName : String
  policyNumber : Option String
  policyType : String
  country : String
  startDate : Timestamp
  maturityDate : Option Timestamp
  nextRenewalDate : Option Timestamp
  lastPremiumDate : Option Timestamp
  premium : Option ℚ
  premiumCurrency : Option String
  premiumFrequency : Option String
  nominee : Option String
  beneficiaryType : Option String
  paidTo : Option String
  renewalStatus : Option String
  notes : Option String
  documentUrl : Option String
  createdAt : Timestamp
deriving DecidableEq, Inhabited

/-- Investment row (shared/schema.ts `investments` table). -/
structure Investment where
  id : Nat
  tenantId : String
  type : String
  platform : String
  country : String
  currency : String
  initialAmount : ℚ
  currentValue : ℚ
  shares : Option ℚ
  purchaseDate : Option Timestamp
  lastUpdated : Timestamp
  createdAt : Timestamp
deriving DecidableEq, Inhabited

/-- The relational store: one list per table, plus counters modelling the
serial / uuid id generators. -/
structure DB where
  tenants : List Tenant
  users : List User
  policies : List Policy
  investments : List Investment
  nextTenantNum : Nat
  nextUserNum : Nat
  nextPolicyId : Nat
  nextInvestmentId : Nat
deriving DecidableEq, Inhabited

/-- The resolved server-side session context attached to an authenticated
request (`req.session.userId` / `req.session.tenantId` in server/routes.ts). -/
structure Session where
  userId : String
  tenantId : String
deriving DecidableEq, Inhabited

/-! ### Storage layer: server/storage.ts `DatabaseStorage` -/

/-- The `and(eq(policies.id, id), eq(policies.tenantId, tenantId))` predicate
used by every tenant-scoped policy statement. -/
def policyMatches (id : Nat) (tenantId : String) (p : Policy) : Bool :=
  p.id == id && p.tenantId == tenantId

/-- The `and(eq(investments.id, id), eq(investments.tenantId, tenantId))`
predicate used by every tenant-scoped investment statement. -/
def investmentMatches (id : Nat) (tenantId : String) (i : Investment) : Bool :=
  i.id == id && i.tenantId == tenantId

/-- `DatabaseStorage.getPolicies`: rows of the tenant (the `ORDER BY` only
permutes and is omitted). -/
def DB.getPolicies (db : DB) (tenantId : String) : List Policy :=
  db.policies.filter (fun p => p.tenantId == tenantId)

/-- `DatabaseStorage.getPolicy`: first row matching both id and tenant. -/
def DB.getPolicy (db : DB) (id : Nat) (tenantId : String) : Option Policy :=
  db.policies.find? (policyMatches id tenantId)

/-- `DatabaseStorage.getInvestments`. -/
def DB.getInvestments (db : DB) (tenantId : String) : List Investment :=
  db.investments.filter (fun i => i.tenantId == tenantId)

/-- `DatabaseStorage.getInvestment`. -/
def DB.getInvestment (db : DB) (id : Nat) (tenantId : String) : Option Investment :=
  db.investments.find? (investmentMatches id tenantId)

/-- `DatabaseStorage.getUser`. -/
def DB.getUser (db : DB) (id : String) : Option User :=
  db.users.find? (fun u => u.id == id)

/-- `DatabaseStorage.getUserByEmail`. -/
def DB.getUserByEmail (db : DB) (email : String) : Option User :=
  db.users.find? (fun u => u.email == email)

/-- `DatabaseStorage.getTenantByDomain`. -/
def DB.getTenantByDomain (db : DB) (domain : String) : Option Tenant :=
  db.tenants.find? (fun t => t.domain == some domain)

/-- `DatabaseStorage.getUsersByTenant`. -/
def DB.getUsersByTenant (db : DB) (tenantId : String) : List User :=
  db.users.filter (fun u => u.tenantId == some tenantId)

/-- Partial policy payload accepted by `insertPolicySchema.partial()` /
`UpdatePolicyRequest`: every insertable column is optional.  `renewalStatus`,
`id` and `createdAt` are omitted by the schema and so have no field here.
`tenantId` is a schema field (the base `insertPolicySchema` does not omit it);
the later shared/routes.ts contract strips it — see `parsePolicyUpdate`. -/
structure PolicyUpdate where
  tenantId : Option String := none
  provider : Option String := none
  policyName : Option String := none
  policyNumber : Option String := none
  policyType : Option String := none
  country : Option String := none
  startDate : Option Timestamp := none
  maturityDate : Option Timestamp := none
  nextRenewalDate : Option Timestamp := none
  lastPremiumDate : Option Timestamp := none
  premium : Option ℚ := none
  premiumCurrency : Option String := none
  premiumFrequency : Option String := none
  nominee : Option String := none
  beneficiaryType : Option String := none
  paidTo : Option String := none
  notes : Option String := none
  documentUrl : Option String := none
deriving DecidableEq, Inhabited

/-- Drizzle `.set(updates)` semantics on a policy row: every field present in
the partial payload overwrites the column, absent fields are untouched. -/
def applyPolicyUpdate (u : PolicyUpdate) (p : Policy) : Policy :=
  { id := p.id
    tenantId := u.tenantId.getD p.tenantId
    provider := u.provider.getD p.provider
    policyName := u.policyName.getD p.policyName
    policyNumber := u.policyNumber.or p.policyNumber
    policyType := u.policyType.getD p.policyType
    country := u.country.getD p.country
    startDate := u.startDate.getD p.startDate
    maturityDate := u.maturityDate.or p.maturityDate
    nextRenewalDate := u.nextRenewalDate.or p.nextRenewalDate
    lastPremiumDate := u.lastPremiumDate.or p.lastPremiumDate
    premium := u.premium.or p.premium
    premiumCurrency := u.premiumCurrency.or p.premiumCurrency
    premiumFrequency := u.premiumFrequency.or p.premiumFrequency
    nominee := u.nominee.or p.nominee
    beneficiaryType := u.beneficiaryType.or p.beneficiaryType
    paidTo := u.paidTo.or p.paidTo
    renewalStatus := p.renewalStatus
    notes := u.notes.or p.notes
    documentUrl := u.documentUrl.or p.documentUrl
    createdAt := p.createdAt }

/-- `DatabaseStorage.updatePolicy`: `UPDATE ... SET updates WHERE id AND
tenantId RETURNING`; the second component is the returned row. -/
def DB.updatePolicy (db : DB) (id : Nat) (tenantId : String) (u : PolicyUpdate) :
    DB × Option Policy :=
  ({ db with policies :=
      db.policies.map (fun p => if policyMatches id tenantId p then applyPolicyUpdate u p else p) },
   (db.policies.find? (policyMatches id tenantId)).map (applyPolicyUpdate u))

/-- `DatabaseStorage.deletePolicy`: `DELETE ... WHERE id AND tenantId`. -/
def DB.deletePolicy (db : DB) (id : Nat) (tenantId : String) : DB :=
  { db with policies := db.policies.filter (fun p => !(policyMatches id tenantId p)) }

/-- Partial investment payload accepted by `insertInvestmentSchema.partial()`.
The base schema omits only `id` and `createdAt`, so `tenantId` IS a payload
field here, in both revisions of the shared contract. -/
structure InvestmentUpdate where
  tenantId : Option String := none
  type : Option String := none
  platform : Option String := none
  country : Option String := none
  currency : Option String := none
  initialAmount : Option ℚ := none
  currentValue : Option ℚ := none
  shares : Option ℚ := none
  purchaseDate : Option Timestamp := none
  lastUpdated : Option Timestamp := none
deriving DecidableEq, Inhabited

/-- Drizzle `.set` semantics on an investment row (before the storage layer
stamps `lastUpdated`). -/
def applyInvestmentUpdate (u : InvestmentUpdate) (i : Investment) : Investment :=
  { id := i.id
    tenantId := u.tenantId.getD i.tenantId
    type := u.type.getD i.type
    platform := u.platform.getD i.platform
    country := u.country.getD i.country
    currency := u.currency.getD i.currency
    initialAmount := u.initialAmount.getD i.initialAmount
    currentValue := u.currentValue.getD i.currentValue
    shares := u.shares.or i.shares
    purchaseDate := u.purchaseDate.or i.purchaseDate
    lastUpdated := u.lastUpdated.getD i.lastUpdated
    createdAt := i.createdAt }

/-- `DatabaseStorage.updateInvestment`: builds
`updatesWithTimestamp = spread of updates, then lastUpdated = new Date()`, so
the stamp overrides any client-supplied `lastUpdated`, then runs the
tenant-scoped `UPDATE ... RETURNING`. -/
def DB.updateInvestment (db : DB) (id : Nat) (tenantId : String)
    (u : InvestmentUpdate) (now : Timestamp) : DB × Option Investment :=
  let apply := fun i => { applyInvestmentUpdate u i with lastUpdated := now }
  ({ db with investments :=
      db.investments.map (fun i => if investmentMatches id tenantId i then apply i else i) },
   (db.investments.find? (investmentMatches id tenantId)).map apply)

/-- `DatabaseStorage.deleteInvestment`. -/
def DB.deleteInvestment (db : DB) (id : Nat) (tenantId : String) : DB :=
  { db with investments := db.investments.filter (fun i => !(investmentMatches id tenantId i)) }

/-- Full insert record for a policy (`InsertPolicy`): what
`storage.createPolicy` receives after the route layer stamped `tenantId`. -/
structure InsertPolicy where
  tenantId : String
  provider : String
  policyName : String
  policyNumber : Option String := none
  policyType : String
  country : String
  startDate : Timestamp
  maturityDate : Option Timestamp := none
  nextRenewalDate : Option Timestamp := none
  lastPremiumDate : Option Timestamp := none
  premium : Option ℚ := none
  premiumCurrency : Option String := none
  premiumFrequency : Option String := none
  nominee : Option String := none
  beneficiaryType : Option String := none
  paidTo : Option String := none
  notes : Option String := none
  documentUrl : Option String := none
deriving DecidableEq, Inhabited

/-- `DatabaseStorage.createPolicy`: INSERT with the serial id counter; the
`renewalStatus` column takes its database default. -/
def DB.createPolicy (db : DB) (ins : InsertPolicy) (now : Timestamp) : DB × Policy :=
  let p : Policy :=
    { id := db.nextPolicyId
      tenantId := ins.tenantId
      provider := ins.provider
      policyName := ins.policyName
      policyNumber := ins.policyNumber
      policyType := ins.policyType
      country := ins.country
      startDate := ins.startDate
      maturityDate := ins.maturityDate
      nextRenewalDate := ins.nextRenewalDate
      lastPremiumDate := ins.lastPremiumDate
      premium := ins.premium
      premiumCurrency := ins.premiumCurrency
      premiumFrequency := ins.premiumFrequency
      nominee := ins.nominee
      beneficiaryType := ins.beneficiaryType
      paidTo := ins.paidTo
      renewalStatus := some "active"
      notes := ins.notes
      documentUrl := ins.documentUrl
      createdAt := now }
  ({ db with policies := db.policies ++ [p], nextPolicyId := db.nextPolicyId + 1 }, p)

/-- Full insert record for an investment (`InsertInvestment`). -/
structure InsertInvestment where
  tenantId : String
  type : String
  platform : String
  country : String
  currency : String
  initialAmount : ℚ
  currentValue : ℚ
  shares : Option ℚ := none
  purchaseDate : Option Timestamp := none
  lastUpdated : Option Timestamp := none
deriving DecidableEq, Inhabited

/-- `DatabaseStorage.createInvestment`: INSERT; `lastUpdated` falls back to the
database `defaultNow()` when the payload omits it. -/
def DB.createInvestment (db : DB) (ins : InsertInvestment) (now : Timestamp) :
    DB × Investment :=
  let i : Investment :=
    { id := db.nextInvestmentId
      tenantId := ins.tenantId
      type := ins.type
      platform := ins.platform
      country := ins.country
      currency := ins.currency
      initialAmount := ins.initialAmount
      currentValue := ins.currentValue
      shares := ins.shares
      purchaseDate := ins.purchaseDate
      lastUpdated := ins.lastUpdated.getD now
      createdAt := now }
  ({ db with investments := db.investments ++ [i], nextInvestmentId := db.nextInvestmentId + 1 }, i)

/-- `DatabaseStorage.updateUserRole`: `UPDATE users SET role WHERE id AND
tenantId RETURNING`. -/
def DB.updateUserRole (db : DB) (userId tenantId role : String) : DB × Option User :=
  let hit := fun (u : User) => u.id == userId && u.tenantId == some tenantId
  ({ db with users := db.users.map (fun u => if hit u then { u with role := role } else u) },
   (db.users.find? hit).map (fun u => { u with role := role }))

/-- `DatabaseStorage.removeUserFromTenant`: a single `UPDATE users SET
tenantId = null, role = user WHERE id AND tenantId`. -/
def DB.removeUserFromTenant (db : DB) (userId tenantId : String) : DB :=
  { db with users := db.users.map (fun u =>
      if u.id == userId && u.tenantId == some tenantId
      then { u with tenantId := none, role := "user" } else u) }

/-! ### Session-backed route layer: server/routes.ts -/

/-- Client create payload for a policy.  Under the later shared contract
revision `tenantId` is stripped by `.omit`; under the earlier one it is a
schema field — we keep it as an optional field so the theorems can quantify
over client-supplied tenant values (the handler overrides it either way). -/
structure PolicyPayload where
  tenantId : Option String := none
  provider : String
  policyName : String
  policyNumber : Option String := none
  policyType : String
  country : String
  startDate : Timestamp
  maturityDate : Option Timestamp := none
  nextRenewalDate : Option Timestamp := none
  lastPremiumDate : Option Timestamp := none
  premium : Option ℚ := none
  premiumCurrency : Option String := none
  premiumFrequency : Option String := none
  nominee : Option String := none
  beneficiaryType : Option String := none
  paidTo : Option String := none
  notes : Option String := none
  documentUrl : Option String := none
deriving DecidableEq, Inhabited

/-- Client create payload for an investment; `insertInvestmentSchema` keeps
`tenantId` as a (required) field, so the client must send one. -/
structure InvestmentPayload where
  tenantId : String
  type : String
  platform : String
  country : String
  currency : String
  initialAmount : ℚ
  currentValue : ℚ
  shares : Option ℚ := none
  purchaseDate : Option Timestamp := none
  lastUpdated : Option Timestamp := none
deriving DecidableEq, Inhabited

/-- GET /api/policies: `storage.getPolicies(req.session.tenantId)`. -/
def listPoliciesRoute (db : DB) (sess : Session) : Nat × List Policy :=
  (200, db.getPolicies sess.tenantId)

/-- GET /api/policies/:id: 404 when the tenant-scoped lookup misses. -/
def getPolicyRoute (db : DB) (sess : Session) (id : Nat) : Nat × Option Policy :=
  match db.getPolicy id sess.tenantId with
  | some p => (200, some p)
  | none => (404, none)

/-- POST /api/policies: the handler spreads the parsed input and then stamps
`tenantId: req.session.tenantId`, so the session value wins over any
client-supplied tenant. -/
def createPolicyRoute (db : DB) (sess : Session) (payload : PolicyPayload)
    (now : Timestamp) : Nat × DB × Policy :=
  let ins : InsertPolicy :=
    { tenantId := sess.tenantId
      provider := payload.provider
      policyName := payload.policyName
      policyNumber := payload.policyNumber
      policyType := payload.policyType
      country := payload.country
      startDate := payload.startDate
      maturityDate := payload.maturityDate
      nextRenewalDate := payload.nextRenewalDate
      lastPremiumDate := payload.lastPremiumDate
      premium := payload.premium
      premiumCurrency := payload.premiumCurrency
      premiumFrequency := payload.premiumFrequency
      nominee := payload.nominee
      beneficiaryType := payload.beneficiaryType
      paidTo := payload.paidTo
      notes := payload.notes
      documentUrl := payload.documentUrl }
  let (db2, p) := db.createPolicy ins now
  (201, db2, p)

/-- The later shared contract parses policy updates with
`insertPolicySchema.omit(tenantId).partial()`: a client-supplied `tenantId` is
stripped at the validation boundary. -/
def parsePolicyUpdate (u : PolicyUpdate) : PolicyUpdate :=
  { u with tenantId := none }

/-- PUT /api/policies/:id: parse, tenant-scoped update, 404 when no row. -/
def updatePolicyRoute (db : DB) (sess : Session) (id : Nat) (u : PolicyUpdate) :
    Nat × DB × Option Policy :=
  match db.updatePolicy id sess.tenantId (parsePolicyUpdate u) with
  | (db2, some p) => (200, db2, some p)
  | (db2, none) => (404, db2, none)

/-- DELETE /api/policies/:id: unconditionally runs the tenant-scoped delete and
responds 204; there is no existence check and no 404 branch. -/
def deletePolicyRoute (db : DB) (sess : Session) (id : Nat) : Nat × DB :=
  (204, db.deletePolicy id sess.tenantId)

/-- GET /api/investments. -/
def listInvestmentsRoute (db : DB) (sess : Session) : Nat × List Investment :=
  (200, db.getInvestments sess.tenantId)

/-- POST /api/investments: same session-stamping spread as policies. -/
def createInvestmentRoute (db : DB) (sess : Session) (payload : InvestmentPayload)
    (now : Timestamp) : Nat × DB × Investment :=
  let ins : InsertInvestment :=
    { tenantId := sess.tenantId
      type := payload.type
      platform := payload.platform
      country := payload.country
      currency := payload.currency
      initialAmount := payload.initialAmount
      currentValue := payload.currentValue
      shares := payload.shares
      purchaseDate := payload.purchaseDate
      lastUpdated := payload.lastUpdated }
  let (db2, i) := db.createInvestment ins now
  (201, db2, i)

/-- PUT /api/investments/:id: the parsed payload is
`insertInvestmentSchema.partial()`, which does NOT strip `tenantId`; the whole
payload flows into the tenant-scoped update. -/
def updateInvestmentRoute (db : DB) (sess : Session) (id : Nat)
    (u : InvestmentUpdate) (now : Timestamp) : Nat × DB × Option Investment :=
  match db.updateInvestment id sess.tenantId u now with
  | (db2, some i) => (200, db2, some i)
  | (db2, none) => (404, db2, none)

/-- DELETE /api/investments/:id: unconditional 204, like the policy delete. -/
def deleteInvestmentRoute (db : DB) (sess : Session) (id : Nat) : Nat × DB :=
  (204, db.deleteInvestment id sess.tenantId)

/-- Response statuses the shared contract (shared/routes.ts) declares for
DELETE /api/policies/:id. -/
def apiPoliciesDeleteStatuses : List Nat := [204, 404]

/-- Response statuses the shared contract declares for
DELETE /api/investments/:id. -/
def apiInvestmentsDeleteStatuses : List Nat := [204, 404]

/-! ### Registration: POST /api/auth/register (server/routes.ts) -/

/-- Bcrypt hashing, an opaque one-way collaborator, modelled as tagging. -/
def hashPassword (password : String) : String := "bcrypt:" ++ password

/-- Parsed register payload (`registerSchema`). -/
structure RegisterInput where
  email : String
  password : String
  firstName : Option String := none
  lastName : Option String := none
  domain : String
deriving DecidableEq, Inhabited

/-- Fresh tenant id from the uuid generator, modelled by a counter. -/
def freshTenantId (db : DB) : String := "tenant-" ++ toString db.nextTenantNum

/-- Fresh user id from the uuid generator, modelled by a counter. -/
def freshUserId (db : DB) : String := "user-" ++ toString db.nextUserNum

/-- POST /api/auth/register: zod validation (password ≥ 6 chars, domain ≥ 2
chars; the email-format regex is an out-of-scope zod detail and is not
modelled), duplicate-email check, get-or-create tenant by domain, count the
tenant members, and create the user with role admin exactly when the count was
zero.  Returns the new state, the HTTP status, and the created user. -/
def register (db : DB) (input : RegisterInput) (now : Timestamp) :
    DB × Nat × Option User :=
  if input.password.length < 6 ∨ input.domain.length < 2 then (db, 400, none)
  else if (db.getUserByEmail input.email).isSome then (db, 400, none)
  else
    let step :=
      match db.getTenantByDomain input.domain with
      | some t => (db, t)
      | none =>
        let t : Tenant :=
          { id := freshTenantId db
            name := input.domain
            domain := some input.domain
            subdomain := some input.domain
            createdAt := now }
        ({ db with tenants := db.tenants ++ [t], nextTenantNum := db.nextTenantNum + 1 }, t)
    let db1 := step.1
    let tenant := step.2
    let isFirstUser := (db1.getUsersByTenant tenant.id).isEmpty
    let user : User :=
      { id := freshUserId db1
        email := input.email
        passwordHash := some (hashPassword input.password)
        firstName := input.firstName
        lastName := input.lastName
        profileImageUrl := none
        tenantId := some tenant.id
        role := if isFirstUser then "admin" else "user"
        createdAt := now
        updatedAt := now }
    ({ db1 with users := db1.users ++ [user], nextUserNum := db1.nextUserNum + 1 },
     201, some user)

/-! ### Admin routes: server/routes.ts -/

/-- PUT /api/admin/users/:userId/role behind the `isAdmin` middleware: reject
non-admin callers (403), reject a role outside the two enumerated values
(400, no write), reject self-demotion to user (400, no write), else run the
tenant-scoped role update and 404 when it hits no row. -/
def updateUserRoleRoute (db : DB) (sess : Session) (targetId role : String) :
    Nat × DB :=
  match db.getUser sess.userId with
  | none => (403, db)
  | some caller =>
    if caller.role ≠ "admin" then (403, db)
    else if !(role == "admin" || role == "user") then (400, db)
    else if targetId == sess.userId && role == "user" then (400, db)
    else
      match db.updateUserRole targetId sess.tenantId role with
      | (db2, some _) => (200, db2)
      | (db2, none) => (404, db2)

/-- DELETE /api/admin/users/:userId behind `isAdmin`: self-removal rejected,
otherwise `removeUserFromTenant` and 204. -/
def removeUserRoute (db : DB) (sess : Session) (targetId : String) : Nat × DB :=
  match db.getUser sess.userId with
  | none => (403, db)
  | some caller =>
    if caller.role ≠ "admin" then (403, db)
    else if targetId == sess.userId then (400, db)
    else (204, db.removeUserFromTenant targetId sess.tenantId)

/-! ### Dashboard stats: DatabaseStorage.getDashboardStats (server/storage.ts) -/

/-- Renewal check: `renewal <= sixtyDaysFromNow` with no lower bound.
`sixtyDaysFromNow` is `setDate(now.getDate() + 60)`, i.e. sixty calendar days
after `now`. -/
def pNeedsRenewal (now : Timestamp) (p : Policy) : Bool :=
  match p.nextRenewalDate with
  | some r => decide (r ≤ now + 60 * dayMs)
  | none => false

/-- Maturity check: `maturity <= sixtyDaysFromNow && maturity > now`. -/
def pExpiringSoon (now : Timestamp) (p : Policy) : Bool :=
  match p.maturityDate with
  | some m => decide (m ≤ now + 60 * dayMs) && decide (now < m)
  | none => false

/-- Result shape of GET /api/dashboard/stats; `investmentsByCurrency` is split
into its two fixed buckets. -/
structure DashboardStats where
  totalPolicies : Nat
  expiringSoon : Nat
  needsRenewal : Nat
  totalInvestments : Nat
  sekTotal : ℚ
  inrTotal : ℚ
deriving DecidableEq, Inhabited

/-- The `filter(currency).reduce(sum + Number(currentValue))` bucket totals. -/
def sumCurrentValue (invs : List Investment) (currency : String) : ℚ :=
  ((invs.filter (fun i => i.currency == currency)).map (fun i => i.currentValue)).sum

/-- `DatabaseStorage.getDashboardStats`: the counter loop over the tenant
policies is the length of the corresponding filters. -/
def DB.getDashboardStats (db : DB) (tenantId : String) (now : Timestamp) :
    DashboardStats :=
  let ps := db.getPolicies tenantId
  let invs := db.getInvestments tenantId
  { totalPolicies := ps.length
    expiringSoon := (ps.filter (pExpiringSoon now)).length
    needsRenewal := (ps.filter (pNeedsRenewal now)).length
    totalInvestments := invs.length
    sekTotal := sumCurrentValue invs "SEK"
    inrTotal := sumCurrentValue invs "INR" }

/-! ### Serverless handlers: api/index.ts -/

/-- `Math.ceil(a / b)` on exact millisecond differences, for `b > 0`. -/
def ceilDiv (a b : Int) : Int := -(Int.fdiv (-a) b)

/-- GET /api/dashboard/stats in api/index.ts: both counters are derived from
`maturityDate` alone via `daysToMaturity`; `nextRenewalDate` is never read. -/
def serverlessDashboardStats (db : DB) (tenantId : String) (now : Timestamp) :
    DashboardStats :=
  let ps := db.policies.filter (fun p => p.tenantId == tenantId)
  let counts := ps.foldl (fun (acc : Nat × Nat) p =>
    match p.maturityDate with
    | none => acc
    | some m =>
      let days := ceilDiv (m - now) dayMs
      if days < 0 then (acc.1, acc.2 + 1)
      else if days ≤ 30 then (acc.1, acc.2 + 1)
      else if days ≤ 60 then (acc.1 + 1, acc.2)
      else acc) (0, 0)
  let invs := db.investments.filter (fun i => i.tenantId == tenantId)
  { totalPolicies := ps.length
    expiringSoon := counts.1
    needsRenewal := counts.2
    totalInvestments := invs.length
    sekTotal := sumCurrentValue invs "SEK"
    inrTotal := sumCurrentValue invs "INR" }

/-- The serverless storage `getPolicy`: lookup by id only (the route layer
performs the tenant check). -/
def serverlessGetPolicy (db : DB) (id : Nat) : Option Policy :=
  db.policies.find? (fun p => p.id == id)

/-- The serverless storage `deletePolicy`: delete by id only. -/
def serverlessDeletePolicyRecord (db : DB) (id : Nat) : DB :=
  { db with policies := db.policies.filter (fun p => !(p.id == id)) }

/-- `deleteBlobFile` in api/index.ts: the whole body sits inside a try/catch
whose catch only logs, so whatever the blob collaborator does the function
returns normally.  The collaborator is the `blobDel` oracle. -/
def deleteBlobFile (blobDel : String → Except String Unit)
    (documentUrl : Option String) : Unit :=
  match documentUrl with
  | none => ()
  | some url =>
    match blobDel url with
    | Except.ok _ => ()
    | Except.error _ => ()

/-- DELETE /api/policies/:id in api/index.ts: id lookup, cross-tenant masked
as 404, best-effort `deleteBlobFile` on the attached document, then the record
delete and 204. -/
def serverlessDeletePolicyRoute (blobDel : String → Except String Unit)
    (db : DB) (sess : Session) (id : Nat) : Nat × DB :=
  match serverlessGetPolicy db id with
  | none => (404, db)
  | some p =>
    if p.tenantId ≠ sess.tenantId then (404, db)
    else
      let _ := deleteBlobFile blobDel p.documentUrl
      (204, serverlessDeletePolicyRecord db id)

/-! ### Analytics: GET /api/dashboard/analytics (server/routes.ts) -/

/-- JS `x || fallback` on a string: the empty string is falsy. -/
def orElseStr (s fallback : String) : String := if s = "" then fallback else s

/-- One `premiumsByProvider` row. -/
structure PremiumRow where
  provider : String
  monthlyPremium : ℚ
  yearlyPremium : ℚ
  policyCount : Nat
  currency : String
deriving DecidableEq, Inhabited

/-- The per-policy row built by the analytics handler:
`monthly = premium / (yearly ? 12 : 1)`, `yearly = premium * (yearly ? 1 : 12)`. -/
def premiumRowOf (pol : Policy) : PremiumRow :=
  { provider := orElseStr pol.provider "Unknown"
    monthlyPremium := pol.premium.getD 0 / (if pol.premiumFrequency == some "yearly" then 12 else 1)
    yearlyPremium := pol.premium.getD 0 * (if pol.premiumFrequency == some "yearly" then 1 else 12)
    policyCount := 1
    currency := orElseStr (pol.premiumCurrency.getD "SEK") "SEK" }

/-- `premiumsByProvider = policies.map(...)`: one row per policy, no grouping. -/
def premiumsByProvider (ps : List Policy) : List PremiumRow :=
  ps.map premiumRowOf

/-- The analytics endpoint applied to the tenant-scoped policy list. -/
def analyticsPremiums (db : DB) (sess : Session) : List PremiumRow :=
  premiumsByProvider (db.getPolicies sess.tenantId)

/-! ### Concrete states used by witnesses and counterexamples -/

/-- A policy created under tenant T1. -/
def exPolicyT1 : Policy :=
  { id := 1
    tenantId := "T1"
    provider := "Acme"
    policyName := "Life Cover"
    policyNumber := none
    policyType := "Life"
    country := "SWEDEN"
    startDate := 0
    maturityDate := none
    nextRenewalDate := none
    lastPremiumDate := none
    premium := none
    premiumCurrency := none
    premiumFrequency := none
    nominee := none
    beneficiaryType := none
    paidTo := none
    renewalStatus := some "active"
    notes := none
    documentUrl := none
    createdAt := 0 }

/-- An investment created under tenant T1. -/
def exInvT1 : Investment :=
  { id := 1
    tenantId := "T1"
    type := "Stocks"
    platform := "Avanza"
    country := "SWEDEN"
    currency := "SEK"
    initialAmount := 100
    currentValue := 120
    shares := none
    purchaseDate := none
    lastUpdated := 0
    createdAt := 0 }

/-- Store holding one T1 policy and one T1 investment. -/
def exDb1 : DB :=
  { tenants := []
    users := []
    policies := [exPolicyT1]
    investments := [exInvT1]
    nextTenantNum := 0
    nextUserNum := 0
    nextPolicyId := 2
    nextInvestmentId := 2 }

/-- A session resolved to tenant T1. -/
def sessT1 : Session := { userId := "u1", tenantId := "T1" }

/-- A session resolved to tenant T2. -/
def sessT2 : Session := { userId := "u2", tenantId := "T2" }

/-- An update payload whose only field is a client-supplied `tenantId`. -/
def hijackUpdate : InvestmentUpdate := { tenantId := some "T2" }

/-- `exInvT1` after applying `hijackUpdate` at time 10. -/
def hijackedInv : Investment := { exInvT1 with tenantId := "T2", lastUpdated := 10 }

/-- An update payload carrying a stale client-supplied `lastUpdated`. -/
def staleStamp : InvestmentUpdate := { lastUpdated := some 3 }

/-- `exInvT1` after an empty-but-stamped update at time 10. -/
def stampedInv : Investment := { exInvT1 with lastUpdated := 10 }

/-- Create payload carrying a client-supplied tenant field. -/
def evilPolicyPayload : PolicyPayload :=
  { tenantId := some "EVIL"
    provider := "Acme"
    policyName := "Life Cover"
    policyType := "Life"
    country := "SWEDEN"
    startDate := 0 }

/-- The empty store. -/
def regDb0 : DB :=
  { tenants := []
    users := []
    policies := []
    investments := []
    nextTenantNum := 0
    nextUserNum := 0
    nextPolicyId := 1
    nextInvestmentId := 1 }

/-- First registration under the fresh domain acme. -/
def aliceReg : RegisterInput :=
  { email := "alice@x.com", password := "password", domain := "acme" }

/-- Second registration under the same domain. -/
def bobReg : RegisterInput :=
  { email := "bob@x.com", password := "password", domain := "acme" }

/-- The store after registering alice. -/
def regDb1 : DB := (register regDb0 aliceReg 0).1

/-- The tenant created lazily by the first registration under acme. -/
def acmeTenant : Tenant :=
  { id := "tenant-0"
    name := "acme"
    domain := some "acme"
    subdomain := some "acme"
    createdAt := 0 }

/-- A T1 policy whose next renewal date is exactly sixty days from time 0. -/
def renewalBoundaryPolicy : Policy :=
  { exPolicyT1 with id := 3, nextRenewalDate := some (60 * dayMs) }

/-- A T1 policy maturing exactly at time 0. -/
def maturityNowPolicy : Policy :=
  { exPolicyT1 with id := 4, maturityDate := some 0 }

/-- Store holding only the renewal-boundary policy. -/
def exDb4 : DB := { regDb0 with policies := [renewalBoundaryPolicy] }

/-- A policy whose `premium` is 1200 with yearly frequency. -/
def yearlyPolicy1200 : Policy :=
  { exPolicyT1 with id := 5, premium := some 1200, premiumFrequency := some "yearly" }

/-- An admin account belonging to tenant T1. -/
def adminAlice : User :=
  { id := "u1"
    email := "alice@x.com"
    passwordHash := some "h1"
    firstName := none
    lastName := none
    profileImageUrl := none
    tenantId := some "T1"
    role := "admin"
    createdAt := 0
    updatedAt := 0 }

/-- A second admin account in tenant T1. -/
def bobAdmin : User :=
  { id := "u2"
    email := "bob@x.com"
    passwordHash := some "h2"
    firstName := none
    lastName := none
    profileImageUrl := none
    tenantId := some "T1"
    role := "admin"
    createdAt := 0
    updatedAt := 0 }

/-- Store with one admin user. -/
def exDb7 : DB := { regDb0 with users := [adminAlice] }

/-- Store with two admin users in tenant T1. -/
def exDb10 : DB := { regDb0 with users := [adminAlice, bobAdmin] }

/-- A T1 policy with an attached document. -/
def docPolicy : Policy :=
  { exPolicyT1 with id := 9, documentUrl := some "blob-file-9" }

/-- Store holding the documented policy. -/
def exDb8 : DB := { regDb0 with policies := [docPolicy] }

/-- A blob collaborator that fails on every deletion. -/
def failingBlob : String → Except String Unit := fun _ => Except.error "boom"

/-- A blob collaborator that succeeds on every deletion. -/
def okBlob : String → Except String Unit := fun _ => Except.ok ()

/-! ### Helper lemmas -/

theorem map_if_id {α : Type} (l : List α) (q : α → Bool) (f : α → α)
    (h : ∀ a ∈ l, q a = false) :
    (l.map fun a => if q a then f a else a) = l := by
  induction l with
  | nil => rfl
  | cons x xs ih =>
    have hx := h x (by simp)
    have ih2 := ih (fun a ha => h a (by simp [ha]))
    simp [hx, ih2]

theorem filter_not_of_false {α : Type} (l : List α) (q : α → Bool)
    (h : ∀ a ∈ l, q a = false) :
    (l.filter fun a => !(q a)) = l := by
  induction l with
  | nil => rfl
  | cons x xs ih =>
    have hx := h x (by simp)
    have ih2 := ih (fun a ha => h a (by simp [ha]))
    simp [List.filter_cons, hx, ih2]

theorem map_map_proj {α β : Type} (l : List α) (f : α → α) (g : α → β)
    (h : ∀ a ∈ l, g (f a) = g a) :
    (l.map f).map g = l.map g := by
  induction l with
  | nil => rfl
  | cons x xs ih =>
    have hx := h x (by simp)
    have ih2 := ih (fun a ha => h a (by simp [ha]))
    simp [hx, ih2]

theorem getD_map_default {α β : Type} [Inhabited α] [Inhabited β] (f : α → β) :
    ∀ (l : List α) (k : Nat), k < l.length →
      (l.map f).getD k default = f (l.getD k default)
  | [], k, hk => by simp at hk
  | x :: _, 0, _ => by simp
  | _ :: xs, Nat.succ k, hk =>
    by simpa using getD_map_default f xs k (Nat.lt_of_succ_lt_succ hk)

/-! ### Claim theorems -/

/-- C1 (amended): for tenants T1 ≠ T2, a Policy or Investment created under T1
is never returned, modified, or removed by any list/get/update/delete operation
scoped to T2; cross-tenant get and update respond not-found (404) and those
routes can only ever answer 200 or 404, never forbidden (403).  (The delete
routes instead answer an unconditional 204 — see the counterexample.) -/
theorem tenant_scoping_masks_cross_tenant_access
    (db : DB) (p : Policy) (i : Investment) (t2 : String) (sess : Session)
    (u : PolicyUpdate) (v : InvestmentUpdate) (now : Timestamp)
    (_hp : p ∈ db.policies) (hpt : p.tenantId ≠ t2)
    (_hi : i ∈ db.investments) (hit : i.tenantId ≠ t2)
    (hpu : ∀ q ∈ db.policies, q.id = p.id → q = p)
    (hiu : ∀ j ∈ db.investments, j.id = i.id → j = i)
    (hsess : sess.tenantId = t2) :
    p ∉ db.getPolicies t2
    ∧ i ∉ db.getInvestments t2
    ∧ db.getPolicy p.id t2 = none
    ∧ db.getInvestment i.id t2 = none
    ∧ getPolicyRoute db sess p.id = (404, none)
    ∧ db.updatePolicy p.id t2 u = (db, none)
    ∧ updatePolicyRoute db sess p.id u = (404, db, none)
    ∧ db.updateInvestment i.id t2 v now = (db, none)
    ∧ updateInvestmentRoute db sess i.id v now = (404, db, none)
    ∧ db.deletePolicy p.id t2 = db
    ∧ db.deleteInvestment i.id t2 = db
    ∧ (∀ (db2 : DB) (s2 : Session) (id2 : Nat),
        (getPolicyRoute db2 s2 id2).1 = 200 ∨ (getPolicyRoute db2 s2 id2).1 = 404)
    ∧ (∀ (db2 : DB) (s2 : Session) (id2 : Nat) (u2 : PolicyUpdate),
        (updatePolicyRoute db2 s2 id2 u2).1 = 200 ∨ (updatePolicyRoute db2 s2 id2 u2).1 = 404)
    ∧ (∀ (db2 : DB) (s2 : Session) (id2 : Nat) (v2 : InvestmentUpdate) (n2 : Timestamp),
        (updateInvestmentRoute db2 s2 id2 v2 n2).1 = 200
          ∨ (updateInvestmentRoute db2 s2 id2 v2 n2).1 = 404) := by
  have hPfalse : ∀ q ∈ db.policies, policyMatches p.id t2 q = false := by
    intro q hq
    rw [Bool.eq_false_iff]
    intro hcontr
    simp only [policyMatches, Bool.and_eq_true, beq_iff_eq] at hcontr
    exact hpt ((hpu q hq hcontr.1) ▸ hcontr.2)
  have hIfalse : ∀ j ∈ db.investments, investmentMatches i.id t2 j = false := by
    intro j hj
    rw [Bool.eq_false_iff]
    intro hcontr
    simp only [investmentMatches, Bool.and_eq_true, beq_iff_eq] at hcontr
    exact hit ((hiu j hj hcontr.1) ▸ hcontr.2)
  have hPfind : db.policies.find? (policyMatches p.id t2) = none :=
    List.find?_eq_none.mpr (fun q hq => by simp [hPfalse q hq])
  have hIfind : db.investments.find? (investmentMatches i.id t2) = none :=
    List.find?_eq_none.mpr (fun j hj => by simp [hIfalse j hj])
  have hPupd : ∀ u0 : PolicyUpdate, db.updatePolicy p.id t2 u0 = (db, none) := by
    intro u0
    simp only [DB.updatePolicy, hPfind, Option.map_none']
    rw [map_if_id _ _ _ hPfalse]
  have hIupd : ∀ v0 : InvestmentUpdate, db.updateInvestment i.id t2 v0 now = (db, none) := by
    intro v0
    simp only [DB.updateInvestment, hIfind, Option.map_none']
    rw [map_if_id _ _ _ hIfalse]
  refine ⟨?_, ?_, ?_, ?_, ?_, hPupd u, ?_, hIupd v, ?_, ?_, ?_, ?_, ?_, ?_⟩
  · intro hmem
    rw [DB.getPolicies, List.mem_filter] at hmem
    exact hpt (by simpa using hmem.2)
  · intro hmem
    rw [DB.getInvestments, List.mem_filter] at hmem
    exact hit (by simpa using hmem.2)
  · simpa only [DB.getPolicy] using hPfind
  · simpa only [DB.getInvestment] using hIfind
  · simp only [getPolicyRoute, DB.getPolicy, hsess, hPfind]
  · simp only [updatePolicyRoute, hsess, hPupd (parsePolicyUpdate u)]
  · simp only [updateInvestmentRoute, hsess, hIupd v]
  · simp only [DB.deletePolicy]
    rw [filter_not_of_false _ _ hPfalse]
  · simp only [DB.deleteInvestment]
    rw [filter_not_of_false _ _ hIfalse]
  · intro db2 s2 id2
    cases hg : db2.getPolicy id2 s2.tenantId with
    | some q => exact Or.inl (by simp [getPolicyRoute, hg])
    | none => exact Or.inr (by simp [getPolicyRoute, hg])
  · intro db2 s2 id2 u2
    rcases hres : db2.updatePolicy id2 s2.tenantId (parsePolicyUpdate u2) with ⟨dbx, ox⟩
    cases ox with
    | some q => exact Or.inl (by simp [updatePolicyRoute, hres])
    | none => exact Or.inr (by simp [updatePolicyRoute, hres])
  · intro db2 s2 id2 v2 n2
    rcases hres : db2.updateInvestment id2 s2.tenantId v2 n2 with ⟨dbx, ox⟩
    cases ox with
    | some q => exact Or.inl (by simp [updateInvestmentRoute, hres])
    | none => exact Or.inr (by simp [updateInvestmentRoute, hres])

/-- C1 witness: concrete cross-tenant reads on `exDb1` miss and answer 404. -/
theorem tenant_scoping_witness :
    exPolicyT1 ∉ exDb1.getPolicies "T2"
    ∧ exDb1.getPolicy 1 "T2" = none
    ∧ getPolicyRoute exDb1 sessT2 1 = (404, none)
    ∧ exDb1.deletePolicy 1 "T2" = exDb1 := by
  have h := tenant_scoping_masks_cross_tenant_access exDb1 exPolicyT1 exInvT1 "T2"
    sessT2 {} {} 0 (by decide) (by decide) (by decide) (by decide)
    (by decide) (by decide) rfl
  exact ⟨h.1, h.2.2.1, h.2.2.2.2.1, h.2.2.2.2.2.2.2.2.2.1⟩

/-- C1 counterexample: a delete scoped to tenant T2 on a record owned by T1
responds 204 success (removing nothing), not the claimed not-found. -/
theorem cross_tenant_delete_responds_success :
    deletePolicyRoute exDb1 sessT2 1 = (204, exDb1)
    ∧ deleteInvestmentRoute exDb1 sessT2 1 = (204, exDb1)
    ∧ (204 : Nat) ≠ 404 := by
  refine ⟨by decide, by decide, by decide⟩

/-- C9: the session-backed Policy and Investment delete routes always respond
204 for every id and session, never 404 (which the shared contract declares),
and when no row matches the id under the session tenant they change nothing. -/
theorem delete_routes_unconditional_success
    (db : DB) (sess : Session) (id : Nat)
    (hp : ∀ p ∈ db.policies, ¬(p.id = id ∧ p.tenantId = sess.tenantId))
    (hi : ∀ i ∈ db.investments, ¬(i.id = id ∧ i.tenantId = sess.tenantId)) :
    (deletePolicyRoute db sess id).2 = db
    ∧ (deleteInvestmentRoute db sess id).2 = db
    ∧ (∀ (db2 : DB) (s2 : Session) (id2 : Nat),
        (deletePolicyRoute db2 s2 id2).1 = 204
        ∧ (deleteInvestmentRoute db2 s2 id2).1 = 204
        ∧ (deletePolicyRoute db2 s2 id2).1 ≠ 404
        ∧ (deleteInvestmentRoute db2 s2 id2).1 ≠ 404)
    ∧ 404 ∈ apiPoliciesDeleteStatuses ∧ 404 ∈ apiInvestmentsDeleteStatuses := by
  have hPfalse : ∀ p ∈ db.policies, policyMatches id sess.tenantId p = false := by
    intro q hq
    rw [Bool.eq_false_iff]
    intro hcontr
    simp only [policyMatches, Bool.and_eq_true, beq_iff_eq] at hcontr
    exact hp q hq hcontr
  have hIfalse : ∀ j ∈ db.investments, investmentMatches id sess.tenantId j = false := by
    intro j hj
    rw [Bool.eq_false_iff]
    intro hcontr
    simp only [investmentMatches, Bool.and_eq_true, beq_iff_eq] at hcontr
    exact hi j hj hcontr
  refine ⟨?_, ?_, ?_, by decide, by decide⟩
  · simp only [deletePolicyRoute, DB.deletePolicy]
    rw [filter_not_of_false _ _ hPfalse]
  · simp only [deleteInvestmentRoute, DB.deleteInvestment]
    rw [filter_not_of_false _ _ hIfalse]
  · intro db2 s2 id2
    exact ⟨rfl, rfl, by simp [deletePolicyRoute], by simp [deleteInvestmentRoute]⟩

/-- C9 witness: deleting an absent id (7) and a cross-tenant id (1 under T2)
on `exDb1` both answer 204 and remove nothing. -/
theorem delete_routes_unconditional_success_witness :
    (deletePolicyRoute exDb1 sessT2 1).2 = exDb1
    ∧ (deleteInvestmentRoute exDb1 sessT2 1).2 = exDb1
    ∧ (deletePolicyRoute exDb1 sessT1 7).1 = 204
    ∧ (deletePolicyRoute exDb1 sessT1 7).2 = exDb1 := by
  have h1 := delete_routes_unconditional_success exDb1 sessT2 1 (by decide) (by decide)
  have h2 := delete_routes_unconditional_success exDb1 sessT1 7 (by decide) (by decide)
  exact ⟨h1.1, h1.2.1, (h2.2.2.1 exDb1 sessT1 7).1, h2.1⟩

/-- C2 (amended): every Policy/Investment create stamps `tenantId` from the
resolved session, overriding any client-supplied tenant field; an update whose
payload carries no `tenantId` leaves every owning tenant unchanged (and the
later policy contract strips the field, so the policy update route always
preserves owners); but the investment update schema accepts `tenantId`, and a
client-supplied value overwrites the owning tenant of the matched row. -/
theorem tenant_stamping_on_create_and_update
    (db : DB) (sess : Session) (pp : PolicyPayload) (ip : InvestmentPayload)
    (id : Nat) (u : PolicyUpdate) (v : InvestmentUpdate) (t2 : String)
    (now : Timestamp) :
    ((createPolicyRoute db sess pp now).2.2).tenantId = sess.tenantId
    ∧ ((createInvestmentRoute db sess ip now).2.2).tenantId = sess.tenantId
    ∧ (u.tenantId = none →
        (db.updatePolicy id sess.tenantId u).1.policies.map Policy.tenantId
          = db.policies.map Policy.tenantId)
    ∧ ((updatePolicyRoute db sess id u).2.1).policies.map Policy.tenantId
        = db.policies.map Policy.tenantId
    ∧ (v.tenantId = none →
        (db.updateInvestment id sess.tenantId v now).1.investments.map Investment.tenantId
          = db.investments.map Investment.tenantId)
    ∧ (v.tenantId = some t2 →
        ∀ j, (db.updateInvestment id sess.tenantId v now).2 = some j →
          j.tenantId = t2) := by
  have hPmap : ∀ u0 : PolicyUpdate, u0.tenantId = none →
      (db.updatePolicy id sess.tenantId u0).1.policies.map Policy.tenantId
        = db.policies.map Policy.tenantId := by
    intro u0 hu0
    simp only [DB.updatePolicy]
    refine map_map_proj _ _ _ ?_
    intro a _
    by_cases hm : policyMatches id sess.tenantId a = true
    · simp [hm, applyPolicyUpdate, hu0]
    · simp [Bool.eq_false_iff.mpr hm]
  refine ⟨rfl, rfl, hPmap u, ?_, ?_, ?_⟩
  · rcases hres : db.updatePolicy id sess.tenantId (parsePolicyUpdate u) with ⟨dbx, ox⟩
    have := hPmap (parsePolicyUpdate u) rfl
    rw [hres] at this
    cases ox with
    | some q => simpa [updatePolicyRoute, hres] using this
    | none => simpa [updatePolicyRoute, hres] using this
  · intro hv
    simp only [DB.updateInvestment]
    refine map_map_proj _ _ _ ?_
    intro a _
    by_cases hm : investmentMatches id sess.tenantId a = true
    · simp [hm, applyInvestmentUpdate, hv]
    · simp [Bool.eq_false_iff.mpr hm]
  · intro hv j hj
    simp only [DB.updateInvestment, Option.map_eq_some'] at hj
    obtain ⟨i0, _, rfl⟩ := hj
    simp [applyInvestmentUpdate, hv]

/-- C2 witness: a create payload carrying tenant EVIL is stored under the
session tenant T1; an investment update whose payload carries tenant T2
rewrites the stored owner to T2. -/
theorem tenant_stamping_witness :
    ((createPolicyRoute exDb1 sessT1 evilPolicyPayload 0).2.2).tenantId = "T1"
    ∧ (exDb1.updateInvestment 1 "T1" hijackUpdate 10).2 = some hijackedInv
    ∧ hijackedInv.tenantId = "T2" := by
  have h := tenant_stamping_on_create_and_update exDb1 sessT1 evilPolicyPayload
    { tenantId := "T1", type := "Stocks", platform := "Avanza", country := "SWEDEN",
      currency := "SEK", initialAmount := 100, currentValue := 120 }
    1 {} hijackUpdate "T2" 10
  have hsnd : (exDb1.updateInvestment 1 "T1" hijackUpdate 10).2 = some hijackedInv := by decide
  exact ⟨h.1, hsnd, h.2.2.2.2.2 rfl hijackedInv hsnd⟩

/-- C2 counterexample: the investment stored under tenant T1 ends up owned by
tenant T2 after a session-T1 update whose payload carries `tenantId = T2`, so
the owning tenant identifier is not immutable after creation. -/
theorem investment_update_owner_change_cex :
    exDb1.investments.map Investment.tenantId = ["T1"]
    ∧ ((updateInvestmentRoute exDb1 sessT1 1 hijackUpdate 10).2.1).investments.map
        Investment.tenantId = ["T2"]
    ∧ (updateInvestmentRoute exDb1 sessT1 1 hijackUpdate 10).1 = 200 := by
  refine ⟨by decide, by decide, by decide⟩

/-- C6: every Investment update stamps the stored and returned `lastUpdated`
to the current clock regardless of the payload (including a client-supplied
`lastUpdated`), so whenever the clock is at or past every stored stamp the new
stamp is ≥ the previous value. -/
theorem investment_update_stamps_timestamp
    (db : DB) (id : Nat) (t : String) (v : InvestmentUpdate) (now : Timestamp) :
    (∀ j, (db.updateInvestment id t v now).2 = some j → j.lastUpdated = now)
    ∧ (∀ i ∈ db.investments, investmentMatches id t i = true →
        ({ applyInvestmentUpdate v i with lastUpdated := now } : Investment)
          ∈ (db.updateInvestment id t v now).1.investments)
    ∧ (∀ i0 ∈ db.investments, i0.lastUpdated ≤ now →
        ∀ j, (db.updateInvestment id t v now).2 = some j →
          i0.lastUpdated ≤ j.lastUpdated) := by
  have hstamp : ∀ j, (db.updateInvestment id t v now).2 = some j → j.lastUpdated = now := by
    intro j hj
    simp only [DB.updateInvestment, Option.map_eq_some'] at hj
    obtain ⟨i0, _, rfl⟩ := hj
    rfl
  refine ⟨hstamp, ?_, ?_⟩
  · intro i hi hm
    simp only [DB.updateInvestment]
    refine List.mem_map.mpr ⟨i, hi, ?_⟩
    simp [hm]
  · intro i0 _ hle j hj
    rw [hstamp j hj]
    exact hle

/-- C6 witness: updating investment 1 at time 10 with a stale client-supplied
`lastUpdated = 3` stores and returns stamp 10, which is ≥ the previous stamp. -/
theorem investment_update_stamps_timestamp_witness :
    (exDb1.updateInvestment 1 "T1" staleStamp 10).2 = some stampedInv
    ∧ stampedInv.lastUpdated = 10
    ∧ exInvT1.lastUpdated ≤ stampedInv.lastUpdated
    ∧ staleStamp.lastUpdated = some 3 := by
  have h := investment_update_stamps_timestamp exDb1 1 "T1" staleStamp 10
  have hsnd : (exDb1.updateInvestment 1 "T1" staleStamp 10).2 = some stampedInv := by decide
  exact ⟨hsnd, h.1 stampedInv hsnd,
    h.2.2 exInvT1 (by decide) (by decide) stampedInv hsnd, rfl⟩

/-- C3: a valid registration whose email is unseen creates the account with
role admin when its tenant has no members at creation time — in particular
under a previously-unseen domain, whose fresh tenant id no user references —
and with role user when the tenant resolved from the domain already has a
member. -/
theorem first_registration_gets_admin
    (db : DB) (input : RegisterInput) (now : Timestamp)
    (hpw : 6 ≤ input.password.length) (hdom : 2 ≤ input.domain.length)
    (hemail : db.getUserByEmail input.email = none) :
    (db.getTenantByDomain input.domain = none →
      (∀ u ∈ db.users, u.tenantId ≠ some (freshTenantId db)) →
      ∃ user, (register db input now).2.2 = some user ∧ user.role = "admin")
    ∧ (∀ t, db.getTenantByDomain input.domain = some t →
      (∃ u ∈ db.users, u.tenantId = some t.id) →
      ∃ user, (register db input now).2.2 = some user ∧ user.role = "user") := by
  have hval : ¬(input.password.length < 6 ∨ input.domain.length < 2) := by
    push_neg
    exact ⟨hpw, hdom⟩
  constructor
  · intro hnone hfresh
    have hfilter : db.users.filter
        (fun u => u.tenantId == some (freshTenantId db)) = [] := by
      refine List.filter_eq_nil_iff.mpr ?_
      intro u hu
      simp [hfresh u hu]
    simp only [register, if_neg hval, hemail, Option.isSome_none,
      Bool.false_eq_true, if_false, hnone, DB.getUsersByTenant]
    refine ⟨_, rfl, ?_⟩
    simp [hfilter]
  · intro t ht hex
    have hne : db.users.filter (fun u => u.tenantId == some t.id) ≠ [] := by
      obtain ⟨u0, hu0, hut⟩ := hex
      exact List.ne_nil_of_mem (List.mem_filter.mpr ⟨hu0, by simp [hut]⟩)
    have hempty : (db.users.filter (fun u => u.tenantId == some t.id)).isEmpty = false := by
      cases hE : (db.users.filter (fun u => u.tenantId == some t.id)).isEmpty
      · rfl
      · exact absurd (List.isEmpty_iff.mp hE) hne
    simp only [register, if_neg hval, hemail, Option.isSome_none,
      Bool.false_eq_true, if_false, ht, DB.getUsersByTenant]
    refine ⟨_, rfl, ?_⟩
    simp [hempty]

/-- C3 witness: registering alice under the unseen domain acme yields role
admin; registering bob under the same domain afterwards yields role user. -/
theorem first_registration_gets_admin_witness :
    (register regDb0 aliceReg 0).2.2.map User.role = some "admin"
    ∧ (register regDb1 bobReg 1).2.2.map User.role = some "user" := by
  constructor
  · obtain ⟨u, hu, hr⟩ :=
      (first_registration_gets_admin regDb0 aliceReg 0 (by decide) (by decide)
        (by decide)).1 (by decide) (by decide)
    rw [hu]
    simp [hr]
  · obtain ⟨u, hu, hr⟩ :=
      (first_registration_gets_admin regDb1 bobReg 1 (by decide) (by decide)
        (by decide)).2 acmeTenant (by decide) (by decide)
    rw [hu]
    simp [hr]

/-- C4 (amended): in `DatabaseStorage.getDashboardStats` a tenant policy with
`maturityDate = now` contributes nothing to `expiringSoon` (strict lower
bound), and a tenant policy with `nextRenewalDate ≤ now + 60 days` — in
particular exactly `now + 60 days`, and also any past date — contributes one
to `needsRenewal`.  (The serverless stats handler ignores `nextRenewalDate`
entirely — see the counterexample.) -/
theorem stats_window_boundaries
    (db : DB) (t : String) (now : Timestamp) (p : Policy) (r : Timestamp)
    (hpt : p.tenantId = t) :
    (p.maturityDate = some now →
      (({ db with policies := p :: db.policies } : DB).getDashboardStats t now).expiringSoon
        = (db.getDashboardStats t now).expiringSoon)
    ∧ (p.nextRenewalDate = some r → r ≤ now + 60 * dayMs →
      (({ db with policies := p :: db.policies } : DB).getDashboardStats t now).needsRenewal
        = (db.getDashboardStats t now).needsRenewal + 1) := by
  have hcons : ({ db with policies := p :: db.policies } : DB).getPolicies t
      = p :: db.getPolicies t := by
    simp [DB.getPolicies, hpt]
  constructor
  · intro hm
    have hfalse : pExpiringSoon now p = false := by
      simp [pExpiringSoon, hm]
    simp [DB.getDashboardStats, hcons, List.filter_cons, hfalse]
  · intro hr hle
    have htrue : pNeedsRenewal now p = true := by
      simp [pNeedsRenewal, hr, hle]
    simp [DB.getDashboardStats, hcons, List.filter_cons, htrue]

/-- C4 witness: at time 0, a policy maturing at 0 leaves `expiringSoon` at
zero, and a policy whose renewal date is exactly sixty days out raises
`needsRenewal` by one. -/
theorem stats_window_boundaries_witness :
    (({ regDb0 with policies := maturityNowPolicy :: regDb0.policies } : DB).getDashboardStats
        "T1" 0).expiringSoon = (regDb0.getDashboardStats "T1" 0).expiringSoon
    ∧ (({ regDb0 with policies := renewalBoundaryPolicy :: regDb0.policies } : DB).getDashboardStats
        "T1" 0).needsRenewal = (regDb0.getDashboardStats "T1" 0).needsRenewal + 1 :=
  ⟨(stats_window_boundaries regDb0 "T1" 0 maturityNowPolicy 0 rfl).1 rfl,
   (stats_window_boundaries regDb0 "T1" 0 renewalBoundaryPolicy (60 * dayMs) rfl).2
     rfl (by decide)⟩

/-- C4 counterexample: the serverless stats handler (api/index.ts), also cited
by the claim, never reads `nextRenewalDate`: a policy whose renewal date is
exactly sixty days out is not counted in its `needsRenewal`, while the
session-backed computation does count it. -/
theorem serverless_stats_ignores_renewal_cex :
    renewalBoundaryPolicy.nextRenewalDate = some (0 + 60 * dayMs)
    ∧ renewalBoundaryPolicy.tenantId = "T1"
    ∧ (serverlessDashboardStats exDb4 "T1" 0).needsRenewal = 0
    ∧ (exDb4.getDashboardStats "T1" 0).needsRenewal = 1 := by
  refine ⟨by decide, by decide, by decide, by decide⟩

/-- C5: the analytics `premiumsByProvider` has exactly one row per policy, and
each row derives `monthlyPremium` and `yearlyPremium` from the single premium
field: yearly frequency gives premium/12 and premium, anything else gives
premium and premium*12. -/
theorem premiums_one_row_per_policy
    (ps : List Policy) (k : Nat) (hk : k < ps.length) :
    (premiumsByProvider ps).length = ps.length
    ∧ ((premiumsByProvider ps).getD k default).monthlyPremium
        = (if (ps.getD k default).premiumFrequency = some "yearly"
           then (ps.getD k default).premium.getD 0 / 12
           else (ps.getD k default).premium.getD 0)
    ∧ ((premiumsByProvider ps).getD k default).yearlyPremium
        = (if (ps.getD k default).premiumFrequency = some "yearly"
           then (ps.getD k default).premium.getD 0
           else (ps.getD k default).premium.getD 0 * 12)
    ∧ ((premiumsByProvider ps).getD k default).policyCount = 1 := by
  have hget : (premiumsByProvider ps).getD k default = premiumRowOf (ps.getD k default) :=
    getD_map_default premiumRowOf ps k hk
  refine ⟨by simp [premiumsByProvider], ?_, ?_, by rw [hget]; rfl⟩
  · rw [hget]
    by_cases hf : (ps.getD k default).premiumFrequency = some "yearly"
    · rw [if_pos hf]
      have hb : ((ps.getD k default).premiumFrequency == some "yearly") = true :=
        beq_iff_eq.mpr hf
      simp only [premiumRowOf, hb, if_true]
    · rw [if_neg hf]
      have hb : ((ps.getD k default).premiumFrequency == some "yearly") = false :=
        beq_eq_false_iff_ne.mpr hf
      simp only [premiumRowOf, hb, Bool.false_eq_true, if_false, div_one]
  · rw [hget]
    by_cases hf : (ps.getD k default).premiumFrequency = some "yearly"
    · rw [if_pos hf]
      have hb : ((ps.getD k default).premiumFrequency == some "yearly") = true :=
        beq_iff_eq.mpr hf
      simp only [premiumRowOf, hb, if_true, mul_one]
    · rw [if_neg hf]
      have hb : ((ps.getD k default).premiumFrequency == some "yearly") = false :=
        beq_eq_false_iff_ne.mpr hf
      simp only [premiumRowOf, hb, Bool.false_eq_true, if_false]

/-- C5 witness: a policy with premium 1200 and yearly frequency yields the
analytics row monthlyPremium 100 and yearlyPremium 1200. -/
theorem premiums_one_row_per_policy_witness :
    ((premiumsByProvider [yearlyPolicy1200]).getD 0 default).monthlyPremium = 100
    ∧ ((premiumsByProvider [yearlyPolicy1200]).getD 0 default).yearlyPremium = 1200 := by
  have h := premiums_one_row_per_policy [yearlyPolicy1200] 0 (by decide)
  constructor
  · rw [h.2.1]
    norm_num [yearlyPolicy1200, exPolicyT1]
  · rw [h.2.2.1]
    norm_num [yearlyPolicy1200, exPolicyT1]

/-- C7: with an admin session, a role change to a value outside the two
enumerated roles is rejected with 400 before any write, and an admin
requesting role user on their own account is rejected with 400 with the store
(and hence the stored role) unchanged. -/
theorem role_route_rejects_self_demotion_and_bad_role
    (db : DB) (sess : Session) (targetId role : String) (caller : User)
    (hc : db.getUser sess.userId = some caller) (hrole : caller.role = "admin") :
    (¬(role = "admin" ∨ role = "user") →
      updateUserRoleRoute db sess targetId role = (400, db))
    ∧ updateUserRoleRoute db sess sess.userId "user" = (400, db)
    ∧ ((updateUserRoleRoute db sess sess.userId "user").2).getUser sess.userId
        = some caller := by
  have hadm : ¬(caller.role ≠ "admin") := by simp [hrole]
  have h2 : updateUserRoleRoute db sess sess.userId "user" = (400, db) := by
    simp only [updateUserRoleRoute, hc]
    rw [if_neg hadm]
    simp
  refine ⟨?_, h2, by rw [h2]; exact hc⟩
  intro hbad
  push_neg at hbad
  simp only [updateUserRoleRoute, hc]
  rw [if_neg hadm]
  have hb1 : (role == "admin") = false := beq_eq_false_iff_ne.mpr hbad.1
  have hb2 : (role == "user") = false := beq_eq_false_iff_ne.mpr hbad.2
  simp [hb1, hb2]

/-- C7 witness: on a concrete store, the admin sending role superuser gets 400
with no change, and the admin demoting themselves gets 400 with no change. -/
theorem role_route_rejects_witness :
    updateUserRoleRoute exDb7 sessT1 "u1" "superuser" = (400, exDb7)
    ∧ updateUserRoleRoute exDb7 sessT1 "u1" "user" = (400, exDb7)
    ∧ adminAlice.role = "admin" := by
  have h := role_route_rejects_self_demotion_and_bad_role exDb7 sessT1 "u1" "superuser"
    adminAlice (by decide) rfl
  exact ⟨h.1 (by decide), h.2.1, rfl⟩

/-- C8: deleting a policy that has an attached document runs the best-effort
blob deletion, whose failures are swallowed: for every blob collaborator —
including an always-failing one — the route responds 204 and removes the
record, and its result does not depend on the collaborator at all. -/
theorem policy_delete_swallows_blob_failure
    (blobDel blobDel2 : String → Except String Unit) (db : DB) (sess : Session)
    (id : Nat) (p : Policy)
    (hfind : serverlessGetPolicy db id = some p)
    (ht : p.tenantId = sess.tenantId) :
    serverlessDeletePolicyRoute blobDel db sess id
      = (204, serverlessDeletePolicyRecord db id)
    ∧ serverlessDeletePolicyRoute blobDel db sess id
      = serverlessDeletePolicyRoute blobDel2 db sess id
    ∧ p ∉ (serverlessDeletePolicyRecord db id).policies := by
  have hmain : ∀ bd : String → Except String Unit,
      serverlessDeletePolicyRoute bd db sess id
        = (204, serverlessDeletePolicyRecord db id) := by
    intro bd
    simp only [serverlessDeletePolicyRoute, hfind]
    rw [if_neg (by simp [ht])]
  have hid : (p.id == id) = true := by
    simp only [serverlessGetPolicy] at hfind
    have h3 := List.find?_some hfind
    simpa using h3
  refine ⟨hmain blobDel, (hmain blobDel).trans (hmain blobDel2).symm, ?_⟩
  intro hmem
  simp only [serverlessDeletePolicyRecord] at hmem
  rw [List.mem_filter] at hmem
  simp [hid] at hmem

/-- C8 witness: with an always-failing blob collaborator, deleting the
documented policy still answers 204, removes the record, and agrees with the
run under a succeeding collaborator. -/
theorem policy_delete_swallows_blob_failure_witness :
    serverlessDeletePolicyRoute failingBlob exDb8 sessT1 9
      = (204, serverlessDeletePolicyRecord exDb8 9)
    ∧ serverlessDeletePolicyRoute failingBlob exDb8 sessT1 9
      = serverlessDeletePolicyRoute okBlob exDb8 sessT1 9
    ∧ docPolicy ∉ (serverlessDeletePolicyRecord exDb8 9).policies :=
  policy_delete_swallows_blob_failure failingBlob okBlob exDb8 sessT1 9 docPolicy
    (by decide) rfl

/-- C10: `removeUserFromTenant` both clears the tenant affiliation and resets
the role to user in the same write, leaving every other field of the matched
user — and every other row and table — unchanged; the admin remove route
applies exactly this write and answers 204. -/
theorem remove_user_resets_role
    (db : DB) (uid t : String) (u : User) (hu : u ∈ db.users) :
    ((u.id = uid ∧ u.tenantId = some t) →
      ({ u with tenantId := none, role := "user" } : User)
        ∈ (db.removeUserFromTenant uid t).users)
    ∧ (¬(u.id = uid ∧ u.tenantId = some t) → u ∈ (db.removeUserFromTenant uid t).users)
    ∧ (db.removeUserFromTenant uid t).users.length = db.users.length
    ∧ (db.removeUserFromTenant uid t).tenants = db.tenants
    ∧ (db.removeUserFromTenant uid t).policies = db.policies
    ∧ (db.removeUserFromTenant uid t).investments = db.investments
    ∧ (∀ sess caller, db.getUser sess.userId = some caller → caller.role = "admin" →
        uid ≠ sess.userId → sess.tenantId = t →
        removeUserRoute db sess uid = (204, db.removeUserFromTenant uid t)) := by
  refine ⟨?_, ?_, by simp [DB.removeUserFromTenant], rfl, rfl, rfl, ?_⟩
  · intro h
    simp only [DB.removeUserFromTenant]
    refine List.mem_map.mpr ⟨u, hu, ?_⟩
    rw [if_pos (by simp [h.1, h.2])]
  · intro h
    simp only [DB.removeUserFromTenant]
    refine List.mem_map.mpr ⟨u, hu, ?_⟩
    have hx : ¬((u.id == uid && u.tenantId == some t) = true) := by
      intro hcontr
      simp only [Bool.and_eq_true, beq_iff_eq] at hcontr
      exact h hcontr
    rw [if_neg hx]
  · intro sess caller hcall hrole hne hst
    have hadm : ¬(caller.role ≠ "admin") := by simp [hrole]
    have hb : (uid == sess.userId) = false := beq_eq_false_iff_ne.mpr hne
    simp only [removeUserRoute, hcall]
    rw [if_neg hadm]
    simp [hb, hst]

/-- C10 witness: removing the admin bob from tenant T1 stores bob with no
tenant and role user, all other fields intact, via the 204 admin route. -/
theorem remove_user_resets_role_witness :
    ({ bobAdmin with tenantId := none, role := "user" } : User)
      ∈ (exDb10.removeUserFromTenant "u2" "T1").users
    ∧ removeUserRoute exDb10 sessT1 "u2" = (204, exDb10.removeUserFromTenant "u2" "T1")
    ∧ bobAdmin.role = "admin" := by
  have h := remove_user_resets_role exDb10 "u2" "T1" bobAdmin (by decide)
  exact ⟨h.1 (by decide), h.2.2.2.2.2.2 sessT1 adminAlice (by decide) rfl (by decide) rfl, rfl⟩

end Prosper
